import Mathlib

/-
Verification of the zwift_smartload BLE relay firmware against its
natural-language specification.  The definitions below are shallow
embeddings of the C sources:

  * grade limiter            — dongle/good_one/src/grade_limiter.c
  * control-point translator — dongle/src/ftms_control_point.c
  * notification relay       — notification_handler.c (HR / CP / FTMS paths)
  * persistent device store  — dongle/src/nvs_storage.c

Machine integers are modelled as Nat / Int with explicit wraparound
(mod 2^16 / mod 2^32) where the C arithmetic can wrap.
-/

namespace ZwiftRelay

/-! ## Grade limiter (grade_limiter.h / grade_limiter.c) -/

/-- NUM_BUCKETS from grade_limiter.h. -/
def NUM_BUCKETS : Nat := 50

/-- SPEED_MIN from grade_limiter.h (0.01 km/h units). -/
def SPEED_MIN : Nat := 1000

/-- SPEED_MAX from grade_limiter.h (0.01 km/h units). -/
def SPEED_MAX : Nat := 3000

/-- BUCKET_WIDTH from grade_limiter.h. -/
def BUCKET_WIDTH : Nat := 40

/-- MAX_GRADE_INITIAL from grade_limiter.h (0.01% units). -/
def MAX_GRADE_INITIAL : Int := 2000

/-- Hard minimum of 100 (1.00%) coded inside grade_limiter_learn. -/
def GRADE_MIN_FLOOR : Int := 100

/-- DECAY_INTERVAL_SECONDS from grade_limiter.c. -/
def DECAY_INTERVAL_SECONDS : Nat := 3600

/-- The in-RAM max_safe_grade table: one int16 ceiling per speed bucket. -/
def GradeTable := Fin NUM_BUCKETS → Int

/-- speed_to_bucket from grade_limiter.c.  Returns none (the C code's -1)
for speeds outside [SPEED_MIN, SPEED_MAX), and otherwise the bucket index
(speed - SPEED_MIN) / BUCKET_WIDTH capped at NUM_BUCKETS - 1. -/
def speed_to_bucket (speed_mh : Nat) : Option (Fin NUM_BUCKETS) :=
  if speed_mh < SPEED_MIN ∨ SPEED_MAX ≤ speed_mh then
    none
  else
    let bucket := (speed_mh - SPEED_MIN) / BUCKET_WIDTH
    if h : NUM_BUCKETS ≤ bucket then
      some ⟨NUM_BUCKETS - 1, by decide⟩
    else
      some ⟨bucket, Nat.lt_of_not_le h⟩

/-- grade_limiter_apply from grade_limiter.c: the pair is
(*applied_grade, returned limited flag). -/
def grade_limiter_apply (t : GradeTable) (speed_mh : Nat) (requested_grade : Int) :
    Int × Bool :=
  match speed_to_bucket speed_mh with
  | none => (requested_grade, false)
  | some b =>
    if requested_grade > t b then (t b, true) else (requested_grade, false)

/-- grade_limiter_learn from grade_limiter.c.  C division of int16 values
truncates toward zero, hence Int.tdiv. -/
def grade_limiter_learn (t : GradeTable) (speed_mh : Nat) (grade_at_release : Int) :
    GradeTable :=
  match speed_to_bucket speed_mh with
  | none => t
  | some b =>
    let new_limit := (grade_at_release * 90).tdiv 100
    let new_limit := if new_limit < GRADE_MIN_FLOOR then GRADE_MIN_FLOOR else new_limit
    if new_limit < t b then Function.update t b new_limit else t

/-- The mutable state of grade_limiter.c that grade_limiter_decay touches. -/
structure GradeLimiterState where
  table : GradeTable
  active_time_seconds : Nat
  last_decay_at_seconds : Nat

/-- One bucket's step inside the decay loop of grade_limiter.c. -/
def decay_bucket (v : Int) : Int :=
  if v < MAX_GRADE_INITIAL then
    if MAX_GRADE_INITIAL < v + 10 then MAX_GRADE_INITIAL else v + 10
  else v

/-- grade_limiter_decay from grade_limiter.c.  The uint32 subtraction
active_time_seconds - last_decay_at_seconds agrees with Nat subtraction
whenever last_decay_at_seconds ≤ active_time_seconds, which the code
maintains (last_decay_at_seconds is only ever set to the then-current
active_time_seconds, and active_time_seconds only grows). -/
def grade_limiter_decay (s : GradeLimiterState) : GradeLimiterState :=
  if s.active_time_seconds - s.last_decay_at_seconds < DECAY_INTERVAL_SECONDS then s
  else
    { table := fun i => decay_bucket (s.table i)
      active_time_seconds := s.active_time_seconds
      last_decay_at_seconds := s.active_time_seconds }

/-- Concrete grade-limiter state used by witnesses: every ceiling at 1500,
4000 accumulated active seconds, no decay yet. -/
def c4_state : GradeLimiterState :=
  { table := fun _ => 1500
    active_time_seconds := 4000
    last_decay_at_seconds := 0 }

/-! ## Control-point translator (dongle/src/ftms_control_point.c) -/

/-- FTMS_CP_SET_TARGET_RESISTANCE from ftms_control_point.h. -/
def FTMS_CP_SET_TARGET_RESISTANCE : Nat := 0x04

/-- FTMS_CP_SET_INDOOR_BIKE_SIM from ftms_control_point.h. -/
def FTMS_CP_SET_INDOOR_BIKE_SIM : Nat := 0x11

/-- FTMS_CP_RESPONSE_CODE from ftms_control_point.h. -/
def FTMS_CP_RESPONSE_CODE : Nat := 0x80

/-- Reading two little-endian bytes as an int16, as
sys_le16_to_cpu followed by assignment to an int16_t does. -/
def toInt16 (lo hi : Nat) : Int :=
  let v := lo % 256 + 256 * (hi % 256)
  if v < 32768 then (v : Int) else (v : Int) - 65536

/-- The GRADE_RESISTANCE macro of ftms_control_point.c:
MAX(MIN(((x) + 100) / 20, 100), 0) with C truncating division. -/
def GRADE_RESISTANCE (x : Int) : Int :=
  max (min ((x + 100).tdiv 20) 100) 0

/-- The translated-simulation event json_out by ftms_control_point_write:
wind speed, requested grade and the resistance written to the trainer. -/
structure SimEvent where
  wind_speed : Int
  grade : Int
  resistance : Int
deriving DecidableEq

/-- The module state of ftms_control_point.c together with the connection
slots it consults.  Each slot is (conn non-NULL, ftms_control_point_handle);
response is the ftms_cp_response buffer with its length. -/
structure CpTranslatorState where
  slots : List (Bool × Nat)
  peripheral_conn : Bool
  indicate_enabled : Bool
  write_busy : Bool
  last_cmd_was_converted : Bool
  response : List Nat
deriving DecidableEq

/-- The trainer-slot scan of ftms_control_point_write: the first slot with
a live connection and a non-zero Control-Point handle. -/
def find_trainer : List (Bool × Nat) → Option Nat
  | [] => none
  | s :: ss => if s.1 && s.2 != 0 then some s.2 else find_trainer ss

/-- What one call to ftms_control_point_write produces: the new module
state, the bytes handed to bt_gatt_write (none when nothing was written),
the sim event if one was logged, and whether a GATT protocol error
(invalid offset / length) was returned to the companion app. -/
structure CpWriteResult where
  state : CpTranslatorState
  forwarded : Option (List Nat)
  event : Option SimEvent
  gatt_error : Bool
deriving DecidableEq

/-- The tail of ftms_control_point_write after the conversion block:
trainer lookup, command-length check against the 32-byte forward buffer,
write-busy check, then the bt_gatt_write of the forward command. -/
def ftms_cp_forward (s : CpTranslatorState) (fwd : List Nat) (orig_len : Nat)
    (ev : Option SimEvent) : CpWriteResult :=
  match find_trainer s.slots with
  | none => { state := s, forwarded := none, event := ev, gatt_error := false }
  | some _ =>
    if 32 < orig_len then
      { state := s, forwarded := none, event := ev, gatt_error := false }
    else if s.write_busy then
      { state := s, forwarded := none, event := ev, gatt_error := false }
    else
      { state := { s with write_busy := true }, forwarded := some fwd,
        event := ev, gatt_error := false }

/-- ftms_control_point_write from dongle/src/ftms_control_point.c.  A
Set Indoor Bike Simulation command of at least 5 bytes is rewritten to a
2-byte Set Target Resistance command via GRADE_RESISTANCE and the
conversion flag is set; every other command is forwarded byte-for-byte
with the flag cleared.  The peripheral connection is captured on any
accepted write. -/
def ftms_control_point_write (s : CpTranslatorState) (offset : Nat)
    (cmd : List Nat) : CpWriteResult :=
  if offset ≠ 0 then
    { state := s, forwarded := none, event := none, gatt_error := true }
  else if cmd.length < 1 then
    { state := s, forwarded := none, event := none, gatt_error := true }
  else
    let s1 : CpTranslatorState := { s with peripheral_conn := true }
    if cmd.getD 0 0 = FTMS_CP_SET_INDOOR_BIKE_SIM ∧ 5 ≤ cmd.length then
      let wind_speed := toInt16 (cmd.getD 1 0) (cmd.getD 2 0)
      let grade := toInt16 (cmd.getD 3 0) (cmd.getD 4 0)
      let resistance := GRADE_RESISTANCE grade
      let converted_cmd :=
        [FTMS_CP_SET_TARGET_RESISTANCE, (resistance % 256).toNat]
      ftms_cp_forward { s1 with last_cmd_was_converted := true }
        converted_cmd cmd.length
        (some { wind_speed := wind_speed, grade := grade, resistance := resistance })
    else
      ftms_cp_forward { s1 with last_cmd_was_converted := false }
        cmd cmd.length none

/-- Result of ftms_cp_indicate_func: the new state and whether a response
was queued (k_work_submit) for indication to the companion app. -/
structure CpIndicateResult where
  state : CpTranslatorState
  queued : Bool
deriving DecidableEq

/-- ftms_cp_indicate_func from dongle/src/ftms_control_point.c, on a
trainer Control-Point indication carrying resp.  When the companion-app
connection exists and indications are enabled, the payload (truncated to
the 20-byte ftms_cp_response buffer) is stored; if the last forwarded
command was a converted 0x11 and the stored payload is a response code
echoing opcode 0x04, the echoed opcode is rewritten to 0x11 and the
conversion flag cleared; the response work item is then submitted. -/
def ftms_cp_indicate_func (s : CpTranslatorState) (resp : List Nat) :
    CpIndicateResult :=
  if s.peripheral_conn && s.indicate_enabled then
    let stored := resp.take 20
    if s.last_cmd_was_converted = true ∧ 3 ≤ stored.length ∧
        stored.getD 0 0 = FTMS_CP_RESPONSE_CODE ∧
        stored.getD 1 0 = FTMS_CP_SET_TARGET_RESISTANCE then
      let s2 : CpTranslatorState :=
        { s with
          response := stored.set 1 FTMS_CP_SET_INDOOR_BIKE_SIM
          last_cmd_was_converted := false }
      { state := s2, queued := true }
    else
      { state := { s with response := stored }, queued := true }
  else
    { state := s, queued := false }

/-- Concrete translator state used by counterexamples and witnesses: one
live trainer slot with Control-Point handle 37, no write in flight. -/
def cp_state_trainer : CpTranslatorState :=
  { slots := [(true, 37), (false, 0), (false, 0)]
    peripheral_conn := false
    indicate_enabled := true
    write_busy := false
    last_cmd_was_converted := false
    response := [] }

/-- The companion-app write of claim C1: opcode 0x11, wind 0, grade 500
(bytes f4 01 little-endian). -/
def c1_cmd : List Nat := [0x11, 0x00, 0x00, 0xF4, 0x01]

/-- Translator state for the C10 counterexample: peripheral connected,
indications enabled, and the last forwarded command was a converted 0x11. -/
def cp_state_converted : CpTranslatorState :=
  { slots := [(true, 37), (false, 0), (false, 0)]
    peripheral_conn := true
    indicate_enabled := true
    write_busy := false
    last_cmd_was_converted := true
    response := [] }

/-! ## Notification relay (notification_handler.c, notify_func) -/

/-- CP_TIMEOUT_MS from common.h. -/
def CP_TIMEOUT_MS : Nat := 5000

/-- The cp_cache structure of common.h: cached power-meter data used for
cadence derivation and power injection. -/
structure CpCache where
  power : Int
  cadence : Nat
  timestamp : Nat
  last_crank_revs : Nat
  last_crank_time : Nat
  last_crank_change_time : Nat
  valid : Bool
deriving DecidableEq

/-- Delta of two uint16 counters with 16-bit wraparound, as computed by
notify_func for crank revolutions and crank event time. -/
def crank_delta (old new : Nat) : Nat :=
  if old ≤ new then new - old else 65536 + new - old

/-- The crank-data branch of the Cycling Power path of notify_func: given
the cache, the decoded crank pair of this notification, and the current
uptime, produce the updated cache.  The multiplication rev_delta *
122880UL is 32-bit on the nRF52840, hence the mod 2^32; the quotient is
then clamped to 65535 and stored in the uint16 cadence field (0.5 rpm
units: 122880 = 1024 ticks per second * 60 * 2). -/
def notify_cp_crank (cache : CpCache) (crank_revs crank_time now : Nat) : CpCache :=
  if cache.valid = true then
    let rev_delta := crank_delta cache.last_crank_revs crank_revs
    if 0 < rev_delta then
      let time_delta := crank_delta cache.last_crank_time crank_time
      let cadence :=
        if 0 < time_delta then
          let cadence_calc := rev_delta * 122880 % 4294967296 / time_delta
          if 65535 < cadence_calc then 65535 else cadence_calc
        else cache.cadence
      { cache with
        cadence := cadence
        last_crank_change_time := now
        last_crank_revs := crank_revs
        last_crank_time := crank_time
        valid := true }
    else
      let cadence :=
        if 4000 ≤ now - cache.last_crank_change_time then 0 else cache.cadence
      { cache with
        cadence := cadence
        last_crank_revs := crank_revs
        last_crank_time := crank_time
        valid := true }
  else
    { cache with
      last_crank_change_time := now
      last_crank_revs := crank_revs
      last_crank_time := crank_time
      valid := true }

/-- Two little-endian bytes of a frame read as a uint16 (missing bytes
read as 0; every use in the model is guarded by a length check exactly
where the C is). -/
def le16_at (frame : List Nat) (i : Nat) : Nat :=
  frame.getD i 0 + 256 * frame.getD (i + 1) 0

/-- The offset of the Instantaneous Power field inside an Indoor Bike Data
frame as walked by the FTMS branch of notify_func: flags (2 bytes) and
speed (2 bytes) always, then average speed, cadence, average cadence,
distance (3 bytes) and resistance per their flag bits; none when bit 6
(power present) is clear. -/
def ftms_power_offset (flags : Nat) : Option Nat :=
  let o := 2 + 2
  let o := o + (if flags &&& 0x0002 ≠ 0 then 2 else 0)
  let o := o + (if flags &&& 0x0004 ≠ 0 then 2 else 0)
  let o := o + (if flags &&& 0x0008 ≠ 0 then 2 else 0)
  let o := o + (if flags &&& 0x0010 ≠ 0 then 3 else 0)
  let o := o + (if flags &&& 0x0020 ≠ 0 then 2 else 0)
  if flags &&& 0x0040 ≠ 0 then some o else none

/-- The power offset computed for a concrete frame: the C only parses the
flags word (and hence sets power_offset) when the frame is at least 2
bytes long. -/
def ftms_frame_power_offset (frame : List Nat) : Option Nat :=
  if 2 ≤ frame.length then ftms_power_offset (le16_at frame 0) else none

/-- Writing a uint16 little-endian into a byte frame, as the injection
store through an int16_t pointer does. -/
def set_le16 (frame : List Nat) (i v : Nat) : List Nat :=
  (frame.set i (v % 256)).set (i + 1) (v / 256 % 256)

/-- sys_cpu_to_le16 of the cached int16 power: its uint16 bit pattern. -/
def cp_power_le16 (p : Int) : Nat := (p % 65536).toNat

/-- The republished Indoor Bike Data frame of the FTMS branch of
notify_func: the inbound frame, with the power field overwritten in place
by the cached power-meter reading exactly when the cache is valid and
fresh (within CP_TIMEOUT_MS), the cached power is non-negative, the flags
declare a power field and that field lies inside the frame. -/
def notify_ftms_bike_data (cache : CpCache) (now : Nat) (frame : List Nat) :
    List Nat :=
  match ftms_frame_power_offset frame with
  | none => frame
  | some po =>
    if cache.valid = true ∧ now - cache.timestamp < CP_TIMEOUT_MS ∧
        0 ≤ cache.power ∧ po + 2 ≤ frame.length then
      set_le16 frame po (cp_power_le16 cache.power)
    else frame

/-- Outcome of the heart-rate branch of notify_func on one notification. -/
structure HrNotifyResult where
  oob_read : Bool
  relayed : Option Nat
  iter_continue : Bool
deriving DecidableEq

/-- The heart-rate branch of notify_func.  The C reads the flags byte
hr_data[0] before any length check, so an empty frame incurs a one-byte
read beyond the frame (oob_read); frames shorter than 2 bytes — or than
3 bytes when the flags byte declares 16-bit BPM — are then dropped
without relaying, and the callback returns BT_GATT_ITER_CONTINUE in
every case, keeping the subscription active. -/
def notify_hr : List Nat → HrNotifyResult
  | [] =>
    { oob_read := true, relayed := none, iter_continue := true }
  | flags :: rest =>
    if (flags :: rest).length < 2 then
      { oob_read := false, relayed := none, iter_continue := true }
    else if flags % 2 = 0 then
      { oob_read := false, relayed := some (rest.getD 0 0), iter_continue := true }
    else if (flags :: rest).length < 3 then
      { oob_read := false, relayed := none, iter_continue := true }
    else
      { oob_read := false,
        relayed := some (rest.getD 0 0 + 256 * rest.getD 1 0),
        iter_continue := true }

/-- Cache for the C6 counterexample: valid and fresh but with a negative
cached power reading. -/
def c6_cache : CpCache :=
  { power := -1, cadence := 0, timestamp := 0, last_crank_revs := 0,
    last_crank_time := 0, last_crank_change_time := 0, valid := true }

/-- Indoor Bike Data frame whose flags declare only the power field:
flags = 0x0040, speed bytes, power bytes. -/
def c6_frame : List Nat := [0x40, 0x00, 0x10, 0x27, 0x64, 0x00]

/-- Outcome of the Cycling Power branch of notify_func on one
notification: the measurement relayed to the companion app (the C
notifies it before any length check), the updated power cache, and the
callback's iteration verdict. -/
structure CpNotifyResult where
  relayed : Option (List Nat)
  cache : CpCache
  iter_continue : Bool
deriving DecidableEq

/-- The Cycling Power branch of notify_func.  The raw measurement is
relayed to the companion app unconditionally, before any length check;
only when the frame is at least 4 bytes are flags and power parsed and
cached, the optional balance byte skipped (when it is inside the frame),
and — when the flags declare crank data that lies inside the frame — the
crank pair fed to the cadence derivation. -/
def notify_cp (cache : CpCache) (now : Nat) (frame : List Nat) : CpNotifyResult :=
  if 4 ≤ frame.length then
    let flags := le16_at frame 0
    let power := toInt16 (frame.getD 2 0) (frame.getD 3 0)
    let cache1 := { cache with power := power, timestamp := now }
    let offset := 4
    let offset := offset + (if flags &&& 0x01 ≠ 0 ∧ offset < frame.length then 1 else 0)
    let cache2 :=
      if flags &&& 0x20 ≠ 0 ∧ offset + 4 ≤ frame.length then
        notify_cp_crank cache1 (le16_at frame offset) (le16_at frame (offset + 2)) now
      else cache1
    { relayed := some frame, cache := cache2, iter_continue := true }
  else
    { relayed := some frame, cache := cache, iter_continue := true }

/-- Cache used by the C9 counterexample and witness: valid, with
distinctive field values so that leaving it untouched is observable. -/
def c9_cache : CpCache :=
  { power := 123, cadence := 5, timestamp := 42, last_crank_revs := 7,
    last_crank_time := 9, last_crank_change_time := 11, valid := true }

/-- Cache for the C6 witness: valid and fresh with power 250. -/
def c6w_cache : CpCache :=
  { power := 250, cadence := 0, timestamp := 0, last_crank_revs := 0,
    last_crank_time := 0, last_crank_change_time := 0, valid := true }

/-- Cache for the C7 counterexample: valid, with crank pair (0, 0). -/
def c7_cache : CpCache :=
  { power := 0, cadence := 77, timestamp := 0, last_crank_revs := 0,
    last_crank_time := 0, last_crank_change_time := 0, valid := true }

/-- Cache for the C7 witness: valid, with crank pair (100, 0). -/
def c7w_cache : CpCache :=
  { power := 0, cadence := 0, timestamp := 0, last_crank_revs := 100,
    last_crank_time := 0, last_crank_change_time := 0, valid := true }

/-! ## Persistent device store (dongle/src/nvs_storage.c) -/

/-- MAX_SAVED_DEVICES from common.h. -/
def MAX_SAVED_DEVICES : Nat := 4

/-- A saved_device record (common.h): address, captured name (the C
strncpy keeps at most 31 name bytes), service mask and the valid flag. -/
structure SavedDevice where
  addr : Nat
  name : List Nat
  svc_mask : Nat
  valid : Bool
deriving DecidableEq

/-- First index satisfying a predicate, as the slot-scan loop of
nvs_save_device computes it. -/
def first_idx (p : SavedDevice → Bool) : List SavedDevice → Option Nat
  | [] => none
  | d :: ds => if p d then some 0 else (first_idx p ds).map (· + 1)

/-- The slot selection of nvs_save_device: the first valid slot holding
this address, else the first empty slot (the loop breaks on an address
match, and the empty-slot candidate is only consulted when no match
exists, so this is equivalent to the single-pass C loop). -/
def nvs_find_slot (store : List SavedDevice) (addr : Nat) : Option Nat :=
  match first_idx (fun d => d.valid && d.addr == addr) store with
  | some i => some i
  | none => first_idx (fun d => !d.valid) store

/-- The record written into the chosen slot by nvs_save_device: the
strncpy into the 32-byte name field keeps at most 31 name bytes. -/
def saved_record (addr : Nat) (name : List Nat) (svc_mask : Nat) : SavedDevice :=
  { addr := addr, name := name.take 31, svc_mask := svc_mask, valid := true }

/-- nvs_save_device from nvs_storage.c (after initialization, with the
NVS write itself succeeding): returns the C result code (0 or -ENOMEM =
-12) together with the updated in-RAM table, which the code keeps
authoritative. -/
def nvs_save_device (store : List SavedDevice) (addr : Nat) (name : List Nat)
    (svc_mask : Nat) : Int × List SavedDevice :=
  match nvs_find_slot store addr with
  | none => (-12, store)
  | some i => (0, store.set i (saved_record addr name svc_mask))

/-- A full device store for the C8 witness: four valid records with
addresses 1 to 4. -/
def c8_store : List SavedDevice :=
  [{ addr := 1, name := [65], svc_mask := 1, valid := true },
   { addr := 2, name := [66], svc_mask := 2, valid := true },
   { addr := 3, name := [67], svc_mask := 4, valid := true },
   { addr := 4, name := [68], svc_mask := 7, valid := true }]

/-! ## List helper lemmas shared by the byte-buffer proofs -/

theorem list_getD_take (l : List Nat) (n i d : Nat) (h : i < n) :
    (l.take n).getD i d = l.getD i d := by
  induction l generalizing n i with
  | nil => simp
  | cons a as ih =>
    cases n with
    | zero => omega
    | succ n =>
      cases i with
      | zero => simp
      | succ i =>
        simpa [List.take_succ_cons, List.getD_cons_succ] using ih n i (by omega)

theorem list_getD_set_self (l : List Nat) (i v d : Nat) (h : i < l.length) :
    (l.set i v).getD i d = v := by
  induction l generalizing i with
  | nil => simp at h
  | cons a as ih =>
    cases i with
    | zero => simp
    | succ i =>
      simpa [List.set_cons_succ, List.getD_cons_succ] using ih i (by simpa using h)

theorem list_getD_set_ne (l : List Nat) (i j v d : Nat) (h : j ≠ i) :
    (l.set i v).getD j d = l.getD j d := by
  induction l generalizing i j with
  | nil => simp
  | cons a as ih =>
    cases i with
    | zero =>
      cases j with
      | zero => exact absurd rfl h
      | succ j => simp
    | succ i =>
      cases j with
      | zero => simp
      | succ j =>
        simpa [List.set_cons_succ, List.getD_cons_succ] using ih i j (by omega)

theorem list_take_all (l : List Nat) (n : Nat) (h : l.length ≤ n) :
    l.take n = l := by
  induction l generalizing n with
  | nil => simp
  | cons a as ih =>
    cases n with
    | zero => simp at h
    | succ n =>
      simpa [List.take_succ_cons] using ih n (by simpa using h)

/-- Projection facts about the forwarding tail of ftms_control_point_write:
it never touches the peripheral flag, the indication-enablement flag or the
conversion flag, and the bytes written (if any) are exactly the forward
command it was given. -/
theorem ftms_cp_forward_fields (s : CpTranslatorState) (fwd : List Nat)
    (orig_len : Nat) (ev : Option SimEvent) :
    (ftms_cp_forward s fwd orig_len ev).state.peripheral_conn = s.peripheral_conn ∧
    (ftms_cp_forward s fwd orig_len ev).state.indicate_enabled = s.indicate_enabled ∧
    (ftms_cp_forward s fwd orig_len ev).state.last_cmd_was_converted
      = s.last_cmd_was_converted ∧
    ((ftms_cp_forward s fwd orig_len ev).forwarded = none ∨
     (ftms_cp_forward s fwd orig_len ev).forwarded = some fwd) := by
  unfold ftms_cp_forward
  cases find_trainer s.slots with
  | none => exact ⟨rfl, rfl, rfl, Or.inl rfl⟩
  | some h =>
    dsimp only
    split
    · exact ⟨rfl, rfl, rfl, Or.inl rfl⟩
    · split
      · exact ⟨rfl, rfl, rfl, Or.inl rfl⟩
      · exact ⟨rfl, rfl, rfl, Or.inr rfl⟩

/-- When a trainer slot is known, the command is short enough and no write
is in flight, the forwarding tail issues exactly the forward command and
marks the write path busy. -/
theorem ftms_cp_forward_ok (s : CpTranslatorState) (fwd : List Nat)
    (orig_len : Nat) (ev : Option SimEvent)
    (ht : (find_trainer s.slots).isSome = true)
    (hb : s.write_busy = false) (hl : orig_len ≤ 32) :
    ftms_cp_forward s fwd orig_len ev
      = { state := { s with write_busy := true }, forwarded := some fwd,
          event := ev, gatt_error := false } := by
  unfold ftms_cp_forward
  cases hft : find_trainer s.slots with
  | none =>
    rw [hft] at ht
    simp at ht
  | some h =>
    dsimp only
    rw [if_neg (by omega), if_neg (by simp [hb])]

/-- When the peripheral is bound, indications are enabled, the conversion
flag is set and the response echoes opcode 0x04 in a response code of at
least 3 bytes, ftms_cp_indicate_func queues the response with the echoed
opcode rewritten to 0x11. -/
theorem ftms_cp_indicate_converted (t : CpTranslatorState) (resp : List Nat)
    (hp : t.peripheral_conn = true) (he : t.indicate_enabled = true)
    (hc : t.last_cmd_was_converted = true)
    (hr0 : resp.getD 0 0 = FTMS_CP_RESPONSE_CODE)
    (hr1 : resp.getD 1 0 = FTMS_CP_SET_TARGET_RESISTANCE)
    (hr3 : 3 ≤ resp.length) :
    (ftms_cp_indicate_func t resp).queued = true ∧
    (ftms_cp_indicate_func t resp).state.response.getD 1 0
      = FTMS_CP_SET_INDOOR_BIKE_SIM := by
  unfold ftms_cp_indicate_func
  rw [hp, he]
  rw [if_pos (show (true && true) = true from rfl)]
  dsimp only
  rw [if_pos ⟨hc, by rw [List.length_take]; omega,
    by rw [list_getD_take resp 20 0 0 (by omega)]; exact hr0,
    by rw [list_getD_take resp 20 1 0 (by omega)]; exact hr1⟩]
  exact ⟨rfl, list_getD_set_self _ 1 _ 0 (by rw [List.length_take]; omega)⟩

/-! ## Claim theorems for the grade limiter -/

/-- Claim C3: outside the restricted band grade_limiter_apply passes the
requested grade through with was_limited = false; inside the band it
returns min(requested, ceiling of bucket(speed)) and the limited flag is
true exactly when the applied grade is strictly below the requested one. -/
theorem c3_apply_spec (t : GradeTable) (speed : Nat) (req : Int) :
    ((speed < SPEED_MIN ∨ SPEED_MAX ≤ speed) →
       grade_limiter_apply t speed req = (req, false)) ∧
    (SPEED_MIN ≤ speed → speed < SPEED_MAX →
       ∃ b, speed_to_bucket speed = some b) ∧
    (∀ b, speed_to_bucket speed = some b →
       (grade_limiter_apply t speed req).1 = min req (t b) ∧
       ((grade_limiter_apply t speed req).2 = true ↔
          (grade_limiter_apply t speed req).1 < req)) := by
  refine ⟨?_, ?_, ?_⟩
  · intro h
    unfold grade_limiter_apply speed_to_bucket
    rw [if_pos h]
  · intro h1 h2
    unfold speed_to_bucket
    rw [if_neg (by omega)]
    dsimp only
    split
    · exact ⟨_, rfl⟩
    · exact ⟨_, rfl⟩
  · intro b hb
    unfold grade_limiter_apply
    rw [hb]
    dsimp only
    by_cases hgt : req > t b
    · rw [if_pos hgt]
      refine ⟨(min_eq_right (le_of_lt hgt)).symm, ?_⟩
      exact ⟨fun _ => hgt, fun _ => rfl⟩
    · rw [if_neg hgt]
      refine ⟨(min_eq_left (not_lt.mp hgt)).symm, ?_⟩
      constructor
      · intro h
        exact absurd h (by simp)
      · intro h
        exact absurd h (lt_irrefl req)

/-- Witness for c3_apply_spec at concrete inputs: speed 500 is outside the
band (pass-through) and speed 1500 is inside with ceiling 300 < requested
500, so the applied grade is 300 and the limited flag is set. -/
theorem c3_apply_spec_witness :
    grade_limiter_apply (fun _ => 300) 500 500 = (500, false) ∧
    (grade_limiter_apply (fun _ => 300) 1500 500).1 = min 500 300 := by
  constructor
  · exact (c3_apply_spec (fun _ => 300) 500 500).1 (Or.inl (by decide))
  · have h := (c3_apply_spec (fun _ => 300) 1500 500).2.2 ⟨12, by decide⟩ (by decide)
    exact h.1

/-- Claim C4: starting from a table whose ceilings all lie in
[GRADE_MIN_FLOOR, MAX_GRADE_INITIAL], learning and decay keep every ceiling
in that interval; decay never pushes a bucket above the initial ceiling;
and a decay step that changes the table requires DECAY_INTERVAL_SECONDS
(3600) of accumulated active time since the last decay, which it then
resets, so a table-changing decay fires at most once per active hour. -/
theorem c4_table_invariants (s : GradeLimiterState)
    (hinv : ∀ i, GRADE_MIN_FLOOR ≤ s.table i ∧ s.table i ≤ MAX_GRADE_INITIAL)
    (hts : s.last_decay_at_seconds ≤ s.active_time_seconds) :
    (∀ speed g i, GRADE_MIN_FLOOR ≤ grade_limiter_learn s.table speed g i ∧
       grade_limiter_learn s.table speed g i ≤ MAX_GRADE_INITIAL) ∧
    (∀ i, GRADE_MIN_FLOOR ≤ (grade_limiter_decay s).table i ∧
       (grade_limiter_decay s).table i ≤ MAX_GRADE_INITIAL) ∧
    ((grade_limiter_decay s).table ≠ s.table →
       DECAY_INTERVAL_SECONDS ≤ s.active_time_seconds - s.last_decay_at_seconds ∧
       (grade_limiter_decay s).last_decay_at_seconds = s.active_time_seconds) := by
  refine ⟨?_, ?_, ?_⟩
  · intro speed g i
    unfold grade_limiter_learn
    cases hsb : speed_to_bucket speed with
    | none => exact hinv i
    | some b =>
      dsimp only
      by_cases hc1 : (g * 90).tdiv 100 < GRADE_MIN_FLOOR
      · rw [if_pos hc1]
        by_cases hc2 : GRADE_MIN_FLOOR < s.table b
        · rw [if_pos hc2, Function.update_apply]
          split
          · exact ⟨le_refl _, le_trans (le_of_lt hc2) (hinv b).2⟩
          · exact hinv i
        · rw [if_neg hc2]
          exact hinv i
      · rw [if_neg hc1]
        by_cases hc2 : (g * 90).tdiv 100 < s.table b
        · rw [if_pos hc2, Function.update_apply]
          split
          · exact ⟨by omega, le_trans (le_of_lt hc2) (hinv b).2⟩
          · exact hinv i
        · rw [if_neg hc2]
          exact hinv i
  · intro i
    unfold grade_limiter_decay
    split
    · exact hinv i
    · dsimp only
      have h := hinv i
      unfold decay_bucket
      split
      · split
        · constructor
          · exact le_trans h.1 (by omega)
          · exact le_refl _
        · exact ⟨le_trans h.1 (by omega), by omega⟩
      · exact h
  · intro hchange
    unfold grade_limiter_decay at hchange ⊢
    by_cases hlt : s.active_time_seconds - s.last_decay_at_seconds <
        DECAY_INTERVAL_SECONDS
    · rw [if_pos hlt] at hchange
      exact absurd rfl hchange
    · rw [if_neg hlt]
      exact ⟨Nat.le_of_not_lt hlt, rfl⟩

/-- Witness for c4_table_invariants: a table constantly at 1500 with 4000
accumulated active seconds and no previous decay satisfies the invariant,
and the bucket 0 ceiling stays inside the bounds after a decay step. -/
theorem c4_witness :
    GRADE_MIN_FLOOR ≤ (grade_limiter_decay c4_state).table ⟨0, by decide⟩ ∧
    (grade_limiter_decay c4_state).table ⟨0, by decide⟩ ≤ MAX_GRADE_INITIAL := by
  have hinv : ∀ i, GRADE_MIN_FLOOR ≤ c4_state.table i ∧
      c4_state.table i ≤ MAX_GRADE_INITIAL := by
    intro i
    constructor
    · show (100 : Int) ≤ 1500
      decide
    · show (1500 : Int) ≤ 2000
      decide
  exact (c4_table_invariants c4_state hinv (by decide)).2.1 ⟨0, by decide⟩

/-- Claim C5 counterexample: with every ceiling at 150 (inside the legal
band [100, 2000]) and a thermal release at grade 2000 while riding at
speed 1500, the learn step leaves the affected bucket at 150, which is
strictly below max(floor(0.9 * 2000), 100) = 1800 — the claim's asserted
lower bound on the resulting ceiling does not hold. -/
theorem c5_counterexample :
    speed_to_bucket 1500 = some ⟨12, by decide⟩ ∧
    grade_limiter_learn (fun _ => 150) 1500 2000 ⟨12, by decide⟩ = 150 ∧
    ¬ (max ((2000 * 90 : Int).tdiv 100) GRADE_MIN_FLOOR ≤
        grade_limiter_learn (fun _ => 150) 1500 2000 ⟨12, by decide⟩) := by
  decide

/-- Claim C5, amended: for a speed inside the restricted band,
grade_limiter_learn never raises the affected bucket; the resulting
ceiling is exactly min(previous ceiling, max(trunc((g*90)/100), 100)) —
so a learn step never lowers a ceiling below max(floor(0.9g), 100),
though the result sits below that bound whenever the previous ceiling
already did; buckets other than bucket(speed) are unchanged, and a
ceiling at or above the global floor stays there. -/
theorem c5_learn_amended (t : GradeTable) (speed : Nat) (g : Int)
    (b : Fin NUM_BUCKETS) (hb : speed_to_bucket speed = some b) :
    grade_limiter_learn t speed g b ≤ t b ∧
    grade_limiter_learn t speed g b
      = min (t b) (max ((g * 90).tdiv 100) GRADE_MIN_FLOOR) ∧
    (∀ j, j ≠ b → grade_limiter_learn t speed g j = t j) ∧
    (GRADE_MIN_FLOOR ≤ t b → GRADE_MIN_FLOOR ≤ grade_limiter_learn t speed g b) := by
  unfold grade_limiter_learn
  rw [hb]
  dsimp only
  have hmax : (if (g * 90).tdiv 100 < GRADE_MIN_FLOOR then GRADE_MIN_FLOOR
      else (g * 90).tdiv 100) = max ((g * 90).tdiv 100) GRADE_MIN_FLOOR := by
    split
    · omega
    · omega
  rw [hmax]
  by_cases hlt : max ((g * 90).tdiv 100) GRADE_MIN_FLOOR < t b
  · rw [if_pos hlt]
    refine ⟨?_, ?_, ?_, ?_⟩
    · rw [Function.update_same]
      exact le_of_lt hlt
    · rw [Function.update_same, min_eq_right (le_of_lt hlt)]
    · intro j hj
      rw [Function.update_noteq hj]
    · intro _
      rw [Function.update_same]
      exact le_max_right _ _
  · rw [if_neg hlt]
    exact ⟨le_refl _, (min_eq_left (not_lt.mp hlt)).symm, fun j hj => rfl, fun hf => hf⟩

/-- Witness for c5_learn_amended: release grade 500 at speed 1500 against
a table constantly at 2000 lowers bucket 12 to min(2000, max(450, 100)). -/
theorem c5_witness :
    grade_limiter_learn (fun _ => 2000) 1500 500 ⟨12, by decide⟩ ≤ 2000 ∧
    grade_limiter_learn (fun _ => 2000) 1500 500 ⟨12, by decide⟩
      = min 2000 (max ((500 * 90 : Int).tdiv 100) GRADE_MIN_FLOOR) := by
  have h := c5_learn_amended (fun _ => 2000) 1500 500 ⟨12, by decide⟩ (by decide)
  exact ⟨h.1, h.2.1⟩

/-- Claim C1 counterexample: with a trainer slot known and no write in
flight, the companion-app write [0x11, 00, 00, f4, 01] (grade = 500)
is forwarded as [0x04, 0x1E] — resistance (500+100)/20 = 30 — not as the
claimed [0x04, 0x0F], and the emitted sim event reports the unlimited
grade 500 with resistance 30; no grade-limiter ceiling is consulted. -/
theorem c1_counterexample :
    (ftms_control_point_write cp_state_trainer 0 c1_cmd).forwarded
      = some [0x04, 0x1E] ∧
    ((some [0x04, 0x1E] : Option (List Nat)) ≠ some [0x04, 0x0F]) ∧
    (ftms_control_point_write cp_state_trainer 0 c1_cmd).event
      = some { wind_speed := 0, grade := 500, resistance := 30 } := by
  decide

/-- Claim C1, amended: for any state with a known trainer slot and no
write in flight, a companion-app write [0x11, wind_lo, wind_hi, f4, 01]
(grade = 500) is forwarded to the trainer as exactly [0x04, 0x1E]
(resistance 30 by the GRADE_RESISTANCE map), and the translation event
reports grade 500 and resistance 30: the grade limiter is not consulted
on this path, so a bucket ceiling of 300 has no effect. -/
theorem c1_sim_translation_amended (s : CpTranslatorState) (wl wh : Nat)
    (ht : (find_trainer s.slots).isSome = true)
    (hb : s.write_busy = false) :
    (ftms_control_point_write s 0 [0x11, wl, wh, 0xF4, 0x01]).forwarded
      = some [0x04, 0x1E] ∧
    (ftms_control_point_write s 0 [0x11, wl, wh, 0xF4, 0x01]).event
      = some { wind_speed := toInt16 wl wh, grade := 500, resistance := 30 } := by
  unfold ftms_control_point_write
  rw [if_neg (by simp)]
  rw [if_neg (by simp)]
  rw [if_pos ⟨rfl, by simp⟩]
  dsimp only
  rw [ftms_cp_forward_ok _ _ _ _ (by exact ht) (by exact hb) (by simp)]
  have g1 : [(0x11 : Nat), wl, wh, 0xF4, 0x01].getD 1 0 = wl := rfl
  have g2 : [(0x11 : Nat), wl, wh, 0xF4, 0x01].getD 2 0 = wh := rfl
  have g3 : [(0x11 : Nat), wl, wh, 0xF4, 0x01].getD 3 0 = 0xF4 := rfl
  have g4 : [(0x11 : Nat), wl, wh, 0xF4, 0x01].getD 4 0 = 0x01 := rfl
  have h1 : toInt16 0xF4 0x01 = 500 := by decide
  have h2 : GRADE_RESISTANCE (toInt16 0xF4 0x01) = 30 := by decide
  constructor
  · dsimp only
    rw [g3, g4, h2]
    decide
  · dsimp only
    rw [g1, g2, g3, g4, h1, (by decide : GRADE_RESISTANCE (500 : Int) = 30)]

/-- Witness for c1_sim_translation_amended with the trainer present and
the write path idle. -/
theorem c1_witness :
    (ftms_control_point_write cp_state_trainer 0 [0x11, 0, 0, 0xF4, 0x01]).forwarded
      = some [0x04, 0x1E] :=
  (c1_sim_translation_amended cp_state_trainer 0 0 (by decide) (by decide)).1

/-- Claim C2: a Set Indoor Bike Simulation write (opcode 0x11, length at
least 5) is rewritten to a 2-byte Set Target Resistance command, and when
the trainer's indication later echoes request opcode 0x04 in a response
code of at least 3 bytes, the stored response has its echoed opcode
rewritten back to 0x11 before the indication work is queued — for every
resistance value computed in between. -/
theorem c2_opcode_roundtrip (s : CpTranslatorState) (cmd resp : List Nat)
    (hop : cmd.getD 0 0 = FTMS_CP_SET_INDOOR_BIKE_SIM)
    (hlen : 5 ≤ cmd.length)
    (hen : s.indicate_enabled = true)
    (hfwd : (ftms_control_point_write s 0 cmd).forwarded.isSome = true)
    (hr0 : resp.getD 0 0 = FTMS_CP_RESPONSE_CODE)
    (hr1 : resp.getD 1 0 = FTMS_CP_SET_TARGET_RESISTANCE)
    (hr3 : 3 ≤ resp.length) :
    (∃ r, (ftms_control_point_write s 0 cmd).forwarded
        = some [FTMS_CP_SET_TARGET_RESISTANCE, r]) ∧
    (ftms_cp_indicate_func (ftms_control_point_write s 0 cmd).state resp).queued
      = true ∧
    (ftms_cp_indicate_func
        (ftms_control_point_write s 0 cmd).state resp).state.response.getD 1 0
      = FTMS_CP_SET_INDOOR_BIKE_SIM := by
  unfold ftms_control_point_write at hfwd ⊢
  rw [if_neg (by simp)] at hfwd ⊢
  rw [if_neg (by omega)] at hfwd ⊢
  rw [if_pos ⟨hop, hlen⟩] at hfwd ⊢
  dsimp only at hfwd ⊢
  have hf := ftms_cp_forward_fields
    { s with peripheral_conn := true, last_cmd_was_converted := true }
    [FTMS_CP_SET_TARGET_RESISTANCE,
      (GRADE_RESISTANCE (toInt16 (cmd.getD 3 0) (cmd.getD 4 0)) % 256).toNat]
    cmd.length
    (some { wind_speed := toInt16 (cmd.getD 1 0) (cmd.getD 2 0),
            grade := toInt16 (cmd.getD 3 0) (cmd.getD 4 0),
            resistance := GRADE_RESISTANCE (toInt16 (cmd.getD 3 0) (cmd.getD 4 0)) })
  obtain ⟨hper, hind, hconv, hor⟩ := hf
  have hsome : (ftms_cp_forward
      { s with peripheral_conn := true, last_cmd_was_converted := true }
      [FTMS_CP_SET_TARGET_RESISTANCE,
        (GRADE_RESISTANCE (toInt16 (cmd.getD 3 0) (cmd.getD 4 0)) % 256).toNat]
      cmd.length
      (some { wind_speed := toInt16 (cmd.getD 1 0) (cmd.getD 2 0),
              grade := toInt16 (cmd.getD 3 0) (cmd.getD 4 0),
              resistance :=
                GRADE_RESISTANCE (toInt16 (cmd.getD 3 0) (cmd.getD 4 0)) })).forwarded
      = some [FTMS_CP_SET_TARGET_RESISTANCE,
          (GRADE_RESISTANCE (toInt16 (cmd.getD 3 0) (cmd.getD 4 0)) % 256).toNat] := by
    cases hor with
    | inl hn =>
      rw [hn] at hfwd
      simp at hfwd
    | inr hs => exact hs
  have hi := ftms_cp_indicate_converted _ resp hper (hind.trans hen) hconv hr0 hr1 hr3
  exact ⟨⟨_, hsome⟩, hi.1, hi.2⟩

/-- Witness for c2_opcode_roundtrip: grade 500 is rewritten to resistance
30 and the trainer's success echo of opcode 0x04 is reported to the
companion app as opcode 0x11. -/
theorem c2_witness :
    (ftms_cp_indicate_func
        (ftms_control_point_write cp_state_trainer 0 c1_cmd).state
        [0x80, 0x04, 0x01]).state.response.getD 1 0
      = FTMS_CP_SET_INDOOR_BIKE_SIM :=
  (c2_opcode_roundtrip cp_state_trainer c1_cmd [0x80, 0x04, 0x01]
    rfl (by decide) rfl (by decide) rfl rfl (by decide)).2.2

/-- Claim C10 counterexample: with the conversion flag set from a
translated 0x11 request, the 3-byte trainer payload [0x80, 0x04, 0x01]
(length at most 20) is stored as [0x80, 0x11, 0x01] — the echoed-opcode
byte is rewritten, so the payload is not forwarded whole. -/
theorem c10_counterexample :
    ([0x80, 0x04, 0x01] : List Nat).length ≤ 20 ∧
    (ftms_cp_indicate_func cp_state_converted [0x80, 0x04, 0x01]).queued = true ∧
    (ftms_cp_indicate_func cp_state_converted [0x80, 0x04, 0x01]).state.response
      = [0x80, 0x11, 0x01] ∧
    ([0x80, 0x11, 0x01] : List Nat) ≠ [0x80, 0x04, 0x01] := by
  decide

/-- Claim C10, amended: while the companion-app connection exists and
indications are enabled, every relayed trainer indication is stored
truncated to its first 20 bytes (so the stored length never exceeds 20
and equals min(20, payload length)); the stored copy is either exactly
those bytes or, when the preceding request was a translated 0x11, those
bytes with the echoed-opcode byte at index 1 rewritten to 0x11; when no
conversion is pending a payload of at most 20 bytes is forwarded whole. -/
theorem c10_truncation_amended (s : CpTranslatorState) (resp : List Nat)
    (hp : s.peripheral_conn = true) (he : s.indicate_enabled = true) :
    (ftms_cp_indicate_func s resp).queued = true ∧
    (ftms_cp_indicate_func s resp).state.response.length = min 20 resp.length ∧
    (ftms_cp_indicate_func s resp).state.response.length ≤ 20 ∧
    ((ftms_cp_indicate_func s resp).state.response = resp.take 20 ∨
     (ftms_cp_indicate_func s resp).state.response
       = (resp.take 20).set 1 FTMS_CP_SET_INDOOR_BIKE_SIM) ∧
    (s.last_cmd_was_converted = false →
       (ftms_cp_indicate_func s resp).state.response = resp.take 20) ∧
    (s.last_cmd_was_converted = false → resp.length ≤ 20 →
       (ftms_cp_indicate_func s resp).state.response = resp) := by
  unfold ftms_cp_indicate_func
  rw [hp, he]
  rw [if_pos (show (true && true) = true from rfl)]
  dsimp only
  split
  · rename_i hcond
    refine ⟨rfl, ?_, ?_, Or.inr rfl, ?_, ?_⟩
    · rw [List.length_set, List.length_take]
    · rw [List.length_set, List.length_take]
      omega
    · intro hf
      rw [hf] at hcond
      exact absurd hcond.1 (by decide)
    · intro hf _
      rw [hf] at hcond
      exact absurd hcond.1 (by decide)
  · refine ⟨rfl, ?_, ?_, Or.inl rfl, fun _ => rfl, ?_⟩
    · rw [List.length_take]
    · rw [List.length_take]
      omega
    · intro _ hle
      exact list_take_all resp 20 hle

/-- Witness for c10_truncation_amended at the converted state and a short
response payload. -/
theorem c10_witness :
    (ftms_cp_indicate_func cp_state_converted [0x80, 0x04, 0x01]).state.response.length
      ≤ 20 :=
  (c10_truncation_amended cp_state_converted [0x80, 0x04, 0x01] rfl rfl).2.2.1

/-- Claim C6 counterexample: a cache that is valid and fresh but holds a
negative cached power (-1) leaves an Indoor Bike Data frame with a
declared, in-range power field byte-for-byte untouched — the claimed
unconditional overwrite (which would have changed the frame) does not
happen. -/
theorem c6_counterexample :
    c6_cache.valid = true ∧
    (0 : Nat) - c6_cache.timestamp < CP_TIMEOUT_MS ∧
    ftms_frame_power_offset c6_frame = some 4 ∧
    notify_ftms_bike_data c6_cache 0 c6_frame = c6_frame ∧
    set_le16 c6_frame 4 (cp_power_le16 c6_cache.power) ≠ c6_frame := by
  decide

/-- Claim C6, amended: the republished Indoor Bike Data frame keeps its
length; it differs from the inbound frame only when the power cache is
valid and fresh (within 5 s) and the flags declare a power field, and
even then only in the two power-field bytes; an expired or invalid cache
leaves the frame untouched; and when the cache is valid, fresh, holds a
non-negative power, and the declared power field lies inside the frame,
that field is overwritten in place with the cached value. -/
theorem c6_power_injection_amended (cache : CpCache) (now : Nat)
    (frame : List Nat) :
    (notify_ftms_bike_data cache now frame).length = frame.length ∧
    (¬ (cache.valid = true ∧ now - cache.timestamp < CP_TIMEOUT_MS) →
       notify_ftms_bike_data cache now frame = frame) ∧
    (ftms_frame_power_offset frame = none →
       notify_ftms_bike_data cache now frame = frame) ∧
    (∀ po, ftms_frame_power_offset frame = some po →
       ∀ i, i ≠ po → i ≠ po + 1 →
         (notify_ftms_bike_data cache now frame).getD i 0 = frame.getD i 0) ∧
    (∀ po, ftms_frame_power_offset frame = some po →
       cache.valid = true → now - cache.timestamp < CP_TIMEOUT_MS →
       0 ≤ cache.power → po + 2 ≤ frame.length →
       notify_ftms_bike_data cache now frame
         = set_le16 frame po (cp_power_le16 cache.power)) := by
  unfold notify_ftms_bike_data
  cases hpo : ftms_frame_power_offset frame with
  | none =>
    refine ⟨rfl, fun _ => rfl, fun _ => rfl, ?_, ?_⟩
    · intro po hsome
      exact absurd hsome (by simp)
    · intro po hsome
      exact absurd hsome (by simp)
  | some po =>
    dsimp only
    split
    · rename_i hcond
      refine ⟨?_, ?_, ?_, ?_, ?_⟩
      · unfold set_le16
        rw [List.length_set, List.length_set]
      · intro hnf
        exact absurd ⟨hcond.1, hcond.2.1⟩ hnf
      · intro hn
        exact absurd hn (by simp)
      · intro po2 hsome i hip hip1
        injection hsome with hx
        subst hx
        unfold set_le16
        rw [list_getD_set_ne _ _ _ _ _ hip1, list_getD_set_ne _ _ _ _ _ hip]
      · intro po2 hsome _ _ _ _
        injection hsome with hx
        subst hx
        rfl
    · rename_i hcond
      refine ⟨rfl, fun _ => rfl, fun hn => absurd hn (by simp), fun _ _ _ _ _ => rfl, ?_⟩
      intro po2 hsome hvalid hfresh hpow hrange
      injection hsome with hx
      subst hx
      exact absurd ⟨hvalid, hfresh, hpow, hrange⟩ hcond

/-- Witness for c6_power_injection_amended: a fresh cache with power 250
overwrites the power field of the frame in place. -/
theorem c6_witness :
    notify_ftms_bike_data c6w_cache 0 c6_frame
      = set_le16 c6_frame 4 (cp_power_le16 c6w_cache.power) :=
  (c6_power_injection_amended c6w_cache 0 c6_frame).2.2.2.2 4
    (by decide) rfl (by decide) (by decide) (by decide)

/-- Claim C7 counterexample: from crank pair (0, 0) to (65535, 65535) both
deltas are 65535, so the claimed clamped value of rev_delta * 122880 /
time_delta is 65535; but the 32-bit product wraps modulo 2^32 and the
code stores 57342 instead. -/
theorem c7_counterexample :
    crank_delta c7_cache.last_crank_revs 65535 = 65535 ∧
    crank_delta c7_cache.last_crank_time 65535 = 65535 ∧
    (notify_cp_crank c7_cache 65535 65535 1000).cadence = 57342 ∧
    min (65535 * 122880 / 65535) 65535 = 65535 ∧
    (57342 : Nat) ≠ 65535 := by
  decide

/-- Claim C7, amended: with a valid cache, when the (16-bit wrapped)
revolution delta and time delta are both positive the new cadence is
min(rev_delta * 122880 mod 2^32 / time_delta, 65535) — which equals the
claimed min(rev_delta * 122880 / time_delta, 65535) whenever the 32-bit
product does not overflow; when the revolution count did not advance the
cadence drops to zero once 4 s of wall-clock time have passed since the
last advance and is preserved for shorter gaps. -/
theorem c7_cadence_amended (cache : CpCache) (revs time now : Nat)
    (hv : cache.valid = true)
    (hwall : cache.last_crank_change_time ≤ now) :
    (0 < crank_delta cache.last_crank_revs revs →
     0 < crank_delta cache.last_crank_time time →
       (notify_cp_crank cache revs time now).cadence
         = min (crank_delta cache.last_crank_revs revs * 122880 % 4294967296
             / crank_delta cache.last_crank_time time) 65535) ∧
    (0 < crank_delta cache.last_crank_revs revs →
     0 < crank_delta cache.last_crank_time time →
     crank_delta cache.last_crank_revs revs * 122880 < 4294967296 →
       (notify_cp_crank cache revs time now).cadence
         = min (crank_delta cache.last_crank_revs revs * 122880
             / crank_delta cache.last_crank_time time) 65535) ∧
    (crank_delta cache.last_crank_revs revs = 0 →
     4000 ≤ now - cache.last_crank_change_time →
       (notify_cp_crank cache revs time now).cadence = 0) ∧
    (crank_delta cache.last_crank_revs revs = 0 →
     now - cache.last_crank_change_time < 4000 →
       (notify_cp_crank cache revs time now).cadence = cache.cadence) := by
  unfold notify_cp_crank
  rw [if_pos hv]
  dsimp only
  refine ⟨?_, ?_, ?_, ?_⟩
  · intro h1 h2
    rw [if_pos h1, if_pos h2]
    dsimp only
    split
    · rename_i hgt
      omega
    · rename_i hgt
      omega
  · intro h1 h2 h3
    rw [if_pos h1, if_pos h2]
    dsimp only
    rw [Nat.mod_eq_of_lt h3]
    split
    · rename_i hgt
      omega
    · rename_i hgt
      omega
  · intro h0 h4
    rw [h0]
    rw [if_neg (by decide)]
    rw [if_pos h4]
  · intro h0 h4
    rw [h0]
    rw [if_neg (by decide)]
    rw [if_neg (by omega)]

/-- Witness for c7_cadence_amended at the spec's example: crank samples
(revs 100, t 0) then (revs 103, t 1024) give internal cadence 360 in
0.5 rpm units, i.e. a reported 180 rpm. -/
theorem c7_witness :
    (notify_cp_crank c7w_cache 103 1024 9).cadence
      = min (crank_delta c7w_cache.last_crank_revs 103 * 122880 % 4294967296
          / crank_delta c7w_cache.last_crank_time 1024) 65535 ∧
    (notify_cp_crank c7w_cache 103 1024 9).cadence / 2 = 180 := by
  have h := c7_cadence_amended c7w_cache 103 1024 9 rfl (by decide)
  refine ⟨h.1 (by decide) (by decide), ?_⟩
  rw [h.1 (by decide) (by decide)]
  decide

/-- Claim C9 counterexample: the claim fails on all three decode paths.
On the heart-rate path the flags byte is read before the length check,
so a zero-length frame is dropped only after a one-byte read beyond the
frame; on the Cycling Power path a 2-byte frame (below its 4-byte decode
minimum) is still relayed verbatim — the relay is not skipped, only the
parse — leaving the cache untouched; on the Indoor Bike Data path a
1-byte frame (below its 2-byte minimum) is likewise republished, not
skipped. -/
theorem c9_counterexample :
    (notify_hr []).oob_read = true ∧
    (notify_hr []).relayed = none ∧
    (notify_hr []).iter_continue = true ∧
    (notify_cp c9_cache 100 [0x00, 0x00]).relayed = some [0x00, 0x00] ∧
    (notify_cp c9_cache 100 [0x00, 0x00]).cache = c9_cache ∧
    notify_ftms_bike_data c9_cache 100 [0x05] = [0x05] := by
  decide

/-- Claim C9, amended: a notification shorter than the minimum its decode
path requires never causes an out-of-bounds access or crash on a frame of
at least one byte, its decode is skipped, and the subscription stays
active for subsequent frames — but only the heart-rate path skips the
frame's relay (2-byte minimum, or 3 bytes when the flags byte declares
16-bit BPM; the zero-length heart-rate frame alone is dropped after a
one-byte out-of-frame flags read); the Cycling Power path relays a
sub-4-byte frame verbatim with its parse and caching skipped, and the
Indoor Bike Data path republishes a sub-2-byte frame verbatim with its
decode and power injection skipped. -/
theorem c9_short_frame_amended (frame : List Nat) (cache : CpCache) (now : Nat) :
    (notify_hr frame).iter_continue = true ∧
    (1 ≤ frame.length → (notify_hr frame).oob_read = false) ∧
    (1 ≤ frame.length → frame.length < 2 → (notify_hr frame).relayed = none) ∧
    (1 ≤ frame.length → frame.getD 0 0 % 2 = 1 → frame.length < 3 →
       (notify_hr frame).relayed = none) ∧
    (frame.length < 4 →
       notify_cp cache now frame
         = { relayed := some frame, cache := cache, iter_continue := true }) ∧
    (frame.length < 2 → notify_ftms_bike_data cache now frame = frame) := by
  refine ⟨?_, ?_, ?_, ?_, ?_, ?_⟩
  · cases frame with
    | nil => rfl
    | cons flags rest =>
      simp only [notify_hr]
      split
      · rfl
      · split
        · rfl
        · split
          · rfl
          · rfl
  · intro h1
    cases frame with
    | nil => simp at h1
    | cons flags rest =>
      simp only [notify_hr]
      split
      · rfl
      · split
        · rfl
        · split
          · rfl
          · rfl
  · intro h1 hl2
    cases frame with
    | nil => simp at h1
    | cons flags rest =>
      simp only [notify_hr]
      rw [if_pos hl2]
  · intro h1 hodd hl3
    cases frame with
    | nil => simp at h1
    | cons flags rest =>
      simp only [notify_hr]
      have hflags : flags % 2 = 1 := by
        simpa using hodd
      by_cases hl2 : (flags :: rest).length < 2
      · rw [if_pos hl2]
      · rw [if_neg hl2, if_neg (by omega), if_pos hl3]
  · intro h4
    unfold notify_cp
    rw [if_neg (by omega)]
  · intro h2
    unfold notify_ftms_bike_data ftms_frame_power_offset
    rw [if_neg (by omega)]

/-- Witness for c9_short_frame_amended: the one-byte heart-rate frame
[0x01] is dropped without an out-of-frame read, a 3-byte Cycling Power
frame is relayed verbatim with the cache untouched, and a 1-byte Indoor
Bike Data frame is republished verbatim. -/
theorem c9_witness :
    (notify_hr [1]).oob_read = false ∧
    (notify_hr [1]).relayed = none ∧
    (notify_cp c9_cache 100 [0xAA, 0xBB, 0xCC])
      = { relayed := some [0xAA, 0xBB, 0xCC], cache := c9_cache,
          iter_continue := true } ∧
    notify_ftms_bike_data c9_cache 100 [0x07] = [0x07] := by
  have h1 := c9_short_frame_amended [1] c9_cache 100
  have h2 := c9_short_frame_amended [0xAA, 0xBB, 0xCC] c9_cache 100
  have h3 := c9_short_frame_amended [0x07] c9_cache 100
  exact ⟨h1.2.1 (by decide), h1.2.2.1 (by decide) (by decide),
    h2.2.2.2.2.1 (by decide), h3.2.2.2.2.2 (by decide)⟩

/-- A predicate false on every element of a list gives no first index. -/
theorem first_idx_none (p : SavedDevice → Bool) (l : List SavedDevice)
    (h : ∀ d ∈ l, p d = false) : first_idx p l = none := by
  induction l with
  | nil => rfl
  | cons d ds ih =>
    unfold first_idx
    rw [h d (by simp)]
    rw [if_neg (by decide)]
    rw [ih (fun x hx => h x (by simp [hx]))]
    rfl

/-- Claim C8: nvs_save_device updates in place the first valid slot
already holding the address; otherwise it fills the first empty slot;
and when every slot holds a valid record for a different address it
fails with -ENOMEM and leaves all four records untouched — no eviction. -/
theorem c8_save_device_spec (store : List SavedDevice) (addr : Nat)
    (name : List Nat) (mask : Nat) (hlen : store.length = MAX_SAVED_DEVICES) :
    (∀ i, first_idx (fun d => d.valid && d.addr == addr) store = some i →
       nvs_save_device store addr name mask
         = (0, store.set i (saved_record addr name mask))) ∧
    (first_idx (fun d => d.valid && d.addr == addr) store = none →
     ∀ j, first_idx (fun d => !d.valid) store = some j →
       nvs_save_device store addr name mask
         = (0, store.set j (saved_record addr name mask))) ∧
    ((∀ d ∈ store, d.valid = true ∧ d.addr ≠ addr) →
       nvs_save_device store addr name mask = (-12, store)) := by
  refine ⟨?_, ?_, ?_⟩
  · intro i hi
    unfold nvs_save_device nvs_find_slot
    rw [hi]
  · intro hn j hj
    unfold nvs_save_device nvs_find_slot
    rw [hn, hj]
  · intro hall
    have hm : first_idx (fun d => d.valid && d.addr == addr) store = none := by
      refine first_idx_none _ _ ?_
      intro d hd
      have h1 := (hall d hd).1
      have h2 := (hall d hd).2
      simp [h1, h2]
    have he : first_idx (fun d => !d.valid) store = none := by
      refine first_idx_none _ _ ?_
      intro d hd
      simp [(hall d hd).1]
    unfold nvs_save_device nvs_find_slot
    rw [hm, he]

/-- Witness for c8_save_device_spec: saving a fifth distinct address (5)
into the full four-slot store fails with -ENOMEM and keeps the store. -/
theorem c8_witness :
    nvs_save_device c8_store 5 [69] 1 = (-12, c8_store) :=
  (c8_save_device_spec c8_store 5 [69] 1 rfl).2.2 (by decide)

end ZwiftRelay
